/-
Verification of the Solvr repository: the Python SDK client
(packages/sdk-python/solvr/client.py, types.py) and the infrastructure
provisioner (infra/provision.py), shallowly embedded in Lean 4.

The SDK's `Solvr._request` retry loop is modelled as a recursive function
over an oracle `resps : Nat → Attempt` giving the outcome of each HTTP
attempt (1-indexed).  Sleep delays are recorded as rationals (the float
literal 0.1 is modelled as 1/10).  The provisioner commands are modelled
as functions on an explicit world state (provider servers, provider SSH
keys, local key files, local instance-metadata directories).
-/
import Mathlib

namespace Solvr

/-- The extractable part of a parsed JSON error body: the values of
`body["error"]["message"]` and `body["error"]["code"]` when the body is a
dict with an `error` dict having those keys, and `none` otherwise
(`error_data.get("error", {})` / `error_info.get(...)` in client.py).
`tag` distinguishes otherwise-identical payloads so that a returned body
can be compared for identity. -/
structure JsonVal where
  errorMessage : Option String
  errorCode : Option String
  tag : Nat
deriving DecidableEq, Repr

/-- Outcome of calling `response.json()`: `malformed` when it raises
(body not parseable as JSON, or the later dict lookups raise), `json v`
when a value is parsed. -/
inductive Body where
  | malformed : Body
  | json : JsonVal → Body
deriving DecidableEq, Repr

/-- Outcome of one call to `requests.request` inside `Solvr._request`:
either an HTTP response with a status code and a body, or a
transport-level failure (`requests.exceptions.RequestException`),
identified by a number. -/
inductive Attempt where
  | http : Nat → Body → Attempt
  | transport : Nat → Attempt
deriving DecidableEq, Repr

/-- An exception that is not a SolvrError: a transport failure from
`requests.request`, or a JSON-decode failure on an ok response
(`return response.json()` raising). -/
inductive Exn where
  | requestExc : Nat → Exn
  | jsonDecode : Nat → Exn
deriving DecidableEq, Repr

/-- The `last_error` variable in `Solvr._request`: either a `SolvrError` built from a
5xx response (message, status, code) or a caught exception. -/
inductive LastErr where
  | solvr : String → Nat → Option String → LastErr
  | exn : Exn → LastErr
deriving DecidableEq, Repr

/-- How `Solvr._request` terminates: return the parsed body, raise a
`SolvrError(message, status, code)`, re-raise a non-Solvr exception, or
raise the generic `Exception("Request failed after retries")`. -/
inductive ReqResult where
  | ok : JsonVal → ReqResult
  | solvrError : String → Nat → Option String → ReqResult
  | raisedExn : Exn → ReqResult
  | genericError : ReqResult
deriving DecidableEq, Repr

/-- The error-body parse in client.py lines 321-328: on success of
`response.json()` take `error.message` with default `"API error: {status}"`
and `error.code`; on any exception fall back to the generic message and
`code = None`. -/
def parseErrBody (status : Nat) (b : Body) : String × Option String :=
  match b with
  | Body.malformed => ("API error: " ++ toString status, none)
  | Body.json v => (v.errorMessage.getD ("API error: " ++ toString status), v.errorCode)

/-- The backoff delay slept after a retryable failure on attempt number
`attempts`: `min(0.1 * (2 ** (attempts - 1)), 5)` seconds. -/
def backoff (attempts : Nat) : ℚ :=
  min ((1 / 10 : ℚ) * 2 ^ (attempts - 1)) 5

/-- Models `raise last_error or Exception("Request failed after retries")`. -/
def finalRaise : Option LastErr → ReqResult
  | none => ReqResult.genericError
  | some (LastErr.solvr m s c) => ReqResult.solvrError m s c
  | some (LastErr.exn e) => ReqResult.raisedExn e

/-- The `while attempts < self._retries` loop of `Solvr._request`.
Returns the outcome, the number of attempts made, and the list of sleep
delays performed, in order.  `response.ok` is `status < 400`; a body that
fails to decode on an ok response raises `requests.exceptions.JSONDecodeError`,
a `RequestException`, hence is retryable.  `fuel` makes the recursion
structural; it starts at `retries.toNat` and stays equal to
`(retries - attempts).toNat`, so the loop guard `attempts < retries` and
fuel exhaustion coincide. -/
def requestLoop (resps : Nat → Attempt) (retries : Int) :
    Nat → Nat → Option LastErr → List ℚ → ReqResult × Nat × List ℚ
  | 0, attempts, lastError, sleeps => (finalRaise lastError, attempts, sleeps)
  | fuel + 1, attempts, lastError, sleeps =>
    if (attempts : Int) < retries then
      match resps (attempts + 1) with
      | Attempt.http status body =>
        if status < 400 then
          match body with
          | Body.json v => (ReqResult.ok v, attempts + 1, sleeps)
          | Body.malformed =>
            if ((attempts + 1 : Nat) : Int) < retries then
              requestLoop resps retries fuel (attempts + 1)
                (some (LastErr.exn (Exn.jsonDecode status)))
                (sleeps ++ [backoff (attempts + 1)])
            else
              (ReqResult.raisedExn (Exn.jsonDecode status), attempts + 1, sleeps)
        else
          if status < 500 then
            (ReqResult.solvrError (parseErrBody status body).1 status
              (parseErrBody status body).2, attempts + 1, sleeps)
          else if ((attempts + 1 : Nat) : Int) < retries then
            requestLoop resps retries fuel (attempts + 1)
              (some (LastErr.solvr (parseErrBody status body).1 status
                (parseErrBody status body).2))
              (sleeps ++ [backoff (attempts + 1)])
          else
            (ReqResult.solvrError (parseErrBody status body).1 status
              (parseErrBody status body).2, attempts + 1, sleeps)
      | Attempt.transport e =>
        if ((attempts + 1 : Nat) : Int) < retries then
          requestLoop resps retries fuel (attempts + 1)
            (some (LastErr.exn (Exn.requestExc e)))
            (sleeps ++ [backoff (attempts + 1)])
        else
          (ReqResult.raisedExn (Exn.requestExc e), attempts + 1, sleeps)
    else
      (finalRaise lastError, attempts, sleeps)

/-- Models `Solvr._request` with the configured retry ceiling, starting from
`last_error = None`, `attempts = 0`. -/
def runRequest (retries : Int) (resps : Nat → Attempt) : ReqResult × Nat × List ℚ :=
  requestLoop resps retries retries.toNat 0 none []

end Solvr

namespace Solvr

/-- C1: a first response with status in [400,500) makes exactly one
attempt, sleeps never, and raises `SolvrError` with that status, the
parsed message and the optional code, for every retry ceiling that
permits at least one attempt. -/
theorem request_4xx_terminal (retries : Int) (resps : Nat → Attempt) (s : Nat) (b : Body)
    (hr : 1 ≤ retries) (hresp : resps 1 = Attempt.http s b)
    (h4 : 400 ≤ s) (h5 : s < 500) :
    runRequest retries resps =
      (ReqResult.solvrError (parseErrBody s b).1 s (parseErrBody s b).2, 1, []) := by
  obtain ⟨m, hm⟩ : ∃ m, retries.toNat = m + 1 := ⟨retries.toNat - 1, by omega⟩
  rw [runRequest, hm, requestLoop]
  rw [if_pos (by exact_mod_cast hr)]
  have h01 : (0 : Nat) + 1 = 1 := rfl
  rw [h01, hresp]
  simp only [Nat.not_lt.mpr h4, if_false, if_pos h5, reduceIte]

/-- Witness for C1 at a concrete input: retries 3, single 404 response
with a parsed error body. -/
theorem request_4xx_terminal_witness :
    runRequest 3 (fun _ => Attempt.http 404 (Body.json ⟨some "Not found", some "NOT_FOUND", 0⟩)) =
      (ReqResult.solvrError "Not found" 404 (some "NOT_FOUND"), 1, []) :=
  request_4xx_terminal 3 _ 404 (Body.json ⟨some "Not found", some "NOT_FOUND", 0⟩)
    (by decide) rfl (by decide) (by decide)

/-- C9: with a retry ceiling ≤ 0 the loop body never runs: zero attempts,
zero sleeps, and the generic `Exception("Request failed after retries")`
is raised instead of a `SolvrError`. -/
theorem request_retries_nonpos (retries : Int) (resps : Nat → Attempt)
    (h : retries ≤ 0) :
    runRequest retries resps = (ReqResult.genericError, 0, []) := by
  have h0 : retries.toNat = 0 := by omega
  rw [runRequest, h0, requestLoop]
  rfl

/-- Witness for C9 at retries = 0. -/
theorem request_retries_nonpos_witness :
    runRequest 0 (fun _ => Attempt.transport 0) = (ReqResult.genericError, 0, []) :=
  request_retries_nonpos 0 (fun _ => Attempt.transport 0) (by decide)

end Solvr

namespace Solvr

theorem requestLoop_spec (resps : Nat → Attempt) (retries : Int) :
    ∀ (fuel attempts : Nat) (le : Option LastErr) (sl : List ℚ),
      (retries - attempts).toNat ≤ fuel →
      attempts ≤ (requestLoop resps retries fuel attempts le sl).2.1 ∧
      ((attempts : Int) < retries →
        attempts + 1 ≤ (requestLoop resps retries fuel attempts le sl).2.1) ∧
      (requestLoop resps retries fuel attempts le sl).2.2 =
        sl ++ (List.range' (attempts + 1)
          ((requestLoop resps retries fuel attempts le sl).2.1 - 1 - attempts)).map backoff := by
  intro fuel
  induction fuel with
  | zero =>
    intro attempts le sl hfuel
    refine ⟨le_rfl, fun hlt => by omega, ?_⟩
    simp [requestLoop]
  | succ m ih =>
    intro attempts le sl hfuel
    rw [requestLoop]
    by_cases h : (attempts : Int) < retries
    · rw [if_pos h]
      split
      · -- http status body
        rename_i status body hra
        by_cases h4 : status < 400
        · rw [if_pos h4]
          split
          · -- json v : success
            exact ⟨Nat.le_succ attempts, fun _ => le_rfl, by simp⟩
          · -- malformed : retryable
            by_cases h1 : ((attempts + 1 : Nat) : Int) < retries
            · rw [if_pos h1]
              obtain ⟨ih1, ih2, ih3⟩ := ih (attempts + 1)
                (some (LastErr.exn (Exn.jsonDecode status)))
                (sl ++ [backoff (attempts + 1)]) (by omega)
              have hA := ih2 h1
              refine ⟨by omega, fun _ => by omega, ?_⟩
              rw [ih3]
              rw [show (requestLoop resps retries m (attempts + 1)
                    (some (LastErr.exn (Exn.jsonDecode status)))
                    (sl ++ [backoff (attempts + 1)])).2.1 - 1 - attempts =
                  ((requestLoop resps retries m (attempts + 1)
                    (some (LastErr.exn (Exn.jsonDecode status)))
                    (sl ++ [backoff (attempts + 1)])).2.1 - 1 - (attempts + 1)) + 1 from by omega,
                List.range'_succ]
              simp
            · rw [if_neg h1]
              exact ⟨Nat.le_succ attempts, fun _ => le_rfl, by simp⟩
        · rw [if_neg h4]
          by_cases h5 : status < 500
          · rw [if_pos h5]
            exact ⟨Nat.le_succ attempts, fun _ => le_rfl, by simp⟩
          · rw [if_neg h5]
            by_cases h1 : ((attempts + 1 : Nat) : Int) < retries
            · rw [if_pos h1]
              obtain ⟨ih1, ih2, ih3⟩ := ih (attempts + 1)
                (some (LastErr.solvr (parseErrBody status body).1 status (parseErrBody status body).2))
                (sl ++ [backoff (attempts + 1)]) (by omega)
              have hA := ih2 h1
              refine ⟨by omega, fun _ => by omega, ?_⟩
              rw [ih3]
              rw [show (requestLoop resps retries m (attempts + 1)
                    (some (LastErr.solvr (parseErrBody status body).1 status (parseErrBody status body).2))
                    (sl ++ [backoff (attempts + 1)])).2.1 - 1 - attempts =
                  ((requestLoop resps retries m (attempts + 1)
                    (some (LastErr.solvr (parseErrBody status body).1 status (parseErrBody status body).2))
                    (sl ++ [backoff (attempts + 1)])).2.1 - 1 - (attempts + 1)) + 1 from by omega,
                List.range'_succ]
              simp
            · rw [if_neg h1]
              exact ⟨Nat.le_succ attempts, fun _ => le_rfl, by simp⟩
      · -- transport e
        rename_i e hra
        by_cases h1 : ((attempts + 1 : Nat) : Int) < retries
        · rw [if_pos h1]
          obtain ⟨ih1, ih2, ih3⟩ := ih (attempts + 1)
            (some (LastErr.exn (Exn.requestExc e)))
            (sl ++ [backoff (attempts + 1)]) (by omega)
          have hA := ih2 h1
          refine ⟨by omega, fun _ => by omega, ?_⟩
          rw [ih3]
          rw [show (requestLoop resps retries m (attempts + 1)
                (some (LastErr.exn (Exn.requestExc e)))
                (sl ++ [backoff (attempts + 1)])).2.1 - 1 - attempts =
              ((requestLoop resps retries m (attempts + 1)
                (some (LastErr.exn (Exn.requestExc e)))
                (sl ++ [backoff (attempts + 1)])).2.1 - 1 - (attempts + 1)) + 1 from by omega,
            List.range'_succ]
          simp
        · rw [if_neg h1]
          exact ⟨Nat.le_succ attempts, fun _ => le_rfl, by simp⟩
    · rw [if_neg h]
      refine ⟨le_rfl, fun hlt => absurd hlt h, ?_⟩
      simp

end Solvr

namespace Solvr

/-- The claims' notion of a retryable failure on an attempt: HTTP status
≥ 500, or a transport-level failure. -/
def retryableFail : Attempt → Prop
  | Attempt.http status _ => 500 ≤ status
  | Attempt.transport _ => True

instance : DecidablePred retryableFail := fun a =>
  match a with
  | Attempt.http status _ => inferInstanceAs (Decidable (500 ≤ status))
  | Attempt.transport _ => inferInstanceAs (Decidable True)

/-- The error `Solvr._request` raises when its final attempt fails
retryably: the `SolvrError` built from the response, or the re-raised
transport exception. -/
def raisedOf : Attempt → ReqResult
  | Attempt.http status body =>
    ReqResult.solvrError (parseErrBody status body).1 status (parseErrBody status body).2
  | Attempt.transport e => ReqResult.raisedExn (Exn.requestExc e)

theorem requestLoop_all_fail (resps : Nat → Attempt) (retries : Int)
    (hall : ∀ a : Nat, 1 ≤ a → (a : Int) ≤ retries → retryableFail (resps a)) :
    ∀ (fuel attempts : Nat) (le : Option LastErr) (sl : List ℚ),
      (retries - attempts).toNat ≤ fuel → (attempts : Int) < retries →
      (requestLoop resps retries fuel attempts le sl).1 = raisedOf (resps retries.toNat) ∧
      (requestLoop resps retries fuel attempts le sl).2.1 = retries.toNat := by
  intro fuel
  induction fuel with
  | zero => intro attempts le sl hfuel hlt; omega
  | succ m ih =>
    intro attempts le sl hfuel hlt
    rw [requestLoop, if_pos hlt]
    have hfail := hall (attempts + 1) (by omega) (by omega)
    split
    · rename_i status body hra
      have h5 : 500 ≤ status := by rw [hra] at hfail; exact hfail
      rw [if_neg (by omega), if_neg (by omega)]
      by_cases h1 : ((attempts + 1 : Nat) : Int) < retries
      · rw [if_pos h1]
        exact ih (attempts + 1) _ _ (by omega) h1
      · rw [if_neg h1]
        have hR : retries.toNat = attempts + 1 := by omega
        rw [hR, hra]
        exact ⟨rfl, rfl⟩
    · rename_i e hra
      by_cases h1 : ((attempts + 1 : Nat) : Int) < retries
      · rw [if_pos h1]
        exact ih (attempts + 1) _ _ (by omega) h1
      · rw [if_neg h1]
        have hR : retries.toNat = attempts + 1 := by omega
        rw [hR, hra]
        exact ⟨rfl, rfl⟩

theorem requestLoop_success (resps : Nat → Attempt) (retries : Int)
    (k status : Nat) (v : JsonVal)
    (hk : (k : Int) ≤ retries)
    (hfail : ∀ a : Nat, 1 ≤ a → a < k → retryableFail (resps a))
    (hsucc : resps k = Attempt.http status (Body.json v)) (hs : status < 400) :
    ∀ (fuel attempts : Nat) (le : Option LastErr) (sl : List ℚ),
      (retries - attempts).toNat ≤ fuel → attempts < k →
      requestLoop resps retries fuel attempts le sl =
        (ReqResult.ok v, k, sl ++ (List.range' (attempts + 1) (k - 1 - attempts)).map backoff) := by
  intro fuel
  induction fuel with
  | zero => intro attempts le sl hfuel hak; omega
  | succ m ih =>
    intro attempts le sl hfuel hak
    have hlt : (attempts : Int) < retries := by omega
    rw [requestLoop, if_pos hlt]
    by_cases hk1 : attempts + 1 = k
    · have hresp : resps (attempts + 1) = Attempt.http status (Body.json v) := by
        rw [hk1]; exact hsucc
      have hz : k - 1 - attempts = 0 := by omega
      rw [hresp]
      simp only [hresp, hs, ite_true, hz, hk1]
      simp
    · have hfa := hfail (attempts + 1) (by omega) (by omega)
      split
      · rename_i status' body' hra
        have h5 : 500 ≤ status' := by rw [hra] at hfa; exact hfa
        rw [if_neg (by omega), if_neg (by omega),
          if_pos (show ((attempts + 1 : Nat) : Int) < retries from by omega)]
        rw [ih (attempts + 1) _ _ (by omega) (by omega)]
        rw [show k - 1 - attempts = (k - 1 - (attempts + 1)) + 1 from by omega,
          List.range'_succ]
        simp
      · rename_i e hra
        rw [if_pos (show ((attempts + 1 : Nat) : Int) < retries from by omega)]
        rw [ih (attempts + 1) _ _ (by omega) (by omega)]
        rw [show k - 1 - attempts = (k - 1 - (attempts + 1)) + 1 from by omega,
          List.range'_succ]
        simp

/-- C2: when every attempt up to the retry ceiling fails retryably (HTTP
status ≥ 500 or transport failure), the number of attempts equals the
configured ceiling and the error observed on the last attempt is raised. -/
theorem request_all_retryable_exhausts (retries : Int) (resps : Nat → Attempt)
    (hr : 1 ≤ retries)
    (hall : ∀ a : Nat, 1 ≤ a → (a : Int) ≤ retries → retryableFail (resps a)) :
    (runRequest retries resps).1 = raisedOf (resps retries.toNat) ∧
    (runRequest retries resps).2.1 = retries.toNat := by
  exact requestLoop_all_fail resps retries hall retries.toNat 0 none [] (by omega) (by omega)

/-- Witness for C2: two 503 responses with an unparseable body and
retries = 2 make exactly 2 attempts and raise the last SolvrError. -/
theorem request_all_retryable_exhausts_witness :
    (runRequest 2 (fun _ => Attempt.http 503 Body.malformed)).1 =
      ReqResult.solvrError "API error: 503" 503 none ∧
    (runRequest 2 (fun _ => Attempt.http 503 Body.malformed)).2.1 = 2 := by
  obtain ⟨h1, h2⟩ := request_all_retryable_exhausts 2 (fun _ => Attempt.http 503 Body.malformed)
    (by norm_num) (fun a _ _ => by simp [retryableFail])
  rw [h1, h2]
  exact ⟨rfl, rfl⟩

/-- C4: if the first k-1 attempts fail retryably and the k-th response is
a 2xx success within the retry ceiling, `_request` returns the parsed
body after exactly k attempts. -/
theorem request_success_short_circuit (retries : Int) (resps : Nat → Attempt)
    (k status : Nat) (v : JsonVal)
    (hk1 : 1 ≤ k) (hk : (k : Int) ≤ retries)
    (hfail : ∀ a : Nat, 1 ≤ a → a < k → retryableFail (resps a))
    (hsucc : resps k = Attempt.http status (Body.json v))
    (h2a : 200 ≤ status) (h2b : status < 300) :
    runRequest retries resps =
      (ReqResult.ok v, k, (List.range' 1 (k - 1)).map backoff) := by
  have h := requestLoop_success resps retries k status v hk hfail hsucc (by omega)
    retries.toNat 0 none [] (by omega) (by omega)
  simpa using h

/-- Witness for C4: responses 503, 503, 200 with retries = 3 give exactly
3 attempts, the parsed body of the third response, and two backoff sleeps. -/
theorem request_success_short_circuit_witness :
    runRequest 3 (fun a => if a = 3 then Attempt.http 200 (Body.json ⟨none, none, 7⟩)
        else Attempt.http 503 Body.malformed) =
      (ReqResult.ok ⟨none, none, 7⟩, 3, [1 / 10, 1 / 5]) := by
  have h := request_success_short_circuit 3
    (fun a => if a = 3 then Attempt.http 200 (Body.json ⟨none, none, 7⟩)
      else Attempt.http 503 Body.malformed) 3 200 ⟨none, none, 7⟩
    (by norm_num) (by norm_num)
    (fun a _ ha => by
      have : a ≠ 3 := by omega
      simp [this, retryableFail])
    (by simp) (by norm_num) (by norm_num)
  rw [h]
  norm_num [backoff, List.range']

/-- C3: in every run, the sleeps performed are exactly
`min(0.1 * 2^(a-1), 5)` for each attempt `a = 1, ..., A-1` that preceded
another attempt (`A` the total attempt count); the delay formula is
non-decreasing in the attempt number and capped at 5 seconds. -/
theorem request_backoff_capped_monotone (retries : Int) (resps : Nat → Attempt) :
    (runRequest retries resps).2.2 =
      (List.range' 1 ((runRequest retries resps).2.1 - 1)).map backoff ∧
    (∀ a : Nat, backoff a = min ((1 / 10 : ℚ) * 2 ^ (a - 1)) 5) ∧
    (∀ a b : Nat, a ≤ b → backoff a ≤ backoff b) ∧
    (∀ a : Nat, backoff a ≤ 5) := by
  refine ⟨?_, fun a => rfl, ?_, fun a => min_le_right _ _⟩
  · have h := (requestLoop_spec resps retries retries.toNat 0 none [] (by omega)).2.2
    simpa using h
  · intro a b hab
    unfold backoff
    refine min_le_min ?_ le_rfl
    refine mul_le_mul_of_nonneg_left ?_ (by norm_num)
    exact pow_le_pow_right₀ (by norm_num) (by omega)

/-- Witness for C3: three all-503 attempts with retries = 3 sleep
backoff(1) then backoff(2), i.e. 0.1s then 0.2s. -/
theorem request_backoff_capped_monotone_witness :
    (runRequest 3 (fun _ => Attempt.http 503 Body.malformed)).2.2 = [1 / 10, 1 / 5] ∧
    backoff 1 ≤ backoff 2 ∧ backoff 9 ≤ 5 := by
  obtain ⟨h1, h2, h3, h4⟩ := request_backoff_capped_monotone 3 (fun _ => Attempt.http 503 Body.malformed)
  refine ⟨?_, h3 1 2 (by norm_num), h4 9⟩
  rw [h1, show (runRequest 3 (fun _ => Attempt.http 503 Body.malformed)).2.1 = 3 from rfl]
  norm_num [backoff, List.range']

end Solvr

namespace Solvr

/-- The `Author` dataclass (types.py). -/
structure Author where
  id : String
  type : String
  display_name : String
  avatar_url : Option String
deriving DecidableEq, Repr

/-- The `Comment` dataclass (types.py); never constructed by the client's
parsers, `Post.comments` stays `None`. -/
structure Comment where
  id : String
  target_type : String
  target_id : String
  content : String
  created_at : String
  author : Option Author
deriving DecidableEq, Repr

/-- The `Approach` dataclass (types.py). -/
structure Approach where
  id : String
  post_id : String
  angle : String
  content : String
  status : String
  upvotes : Int
  downvotes : Int
  created_at : String
  updated_at : String
  method : Option String
  assumptions : Option (List String)
  author : Option Author
deriving DecidableEq, Repr

/-- The `Answer` dataclass (types.py). -/
structure Answer where
  id : String
  post_id : String
  content : String
  is_accepted : Bool
  upvotes : Int
  downvotes : Int
  created_at : String
  updated_at : String
  author : Option Author
deriving DecidableEq, Repr

/-- The `Post` dataclass (types.py). -/
structure Post where
  id : String
  type : String
  title : String
  description : String
  status : String
  upvotes : Int
  downvotes : Int
  view_count : Int
  created_at : String
  updated_at : String
  tags : Option (List String)
  author : Option Author
  success_criteria : Option (List String)
  accepted_answer_id : Option String
  approaches : Option (List Approach)
  answers : Option (List Answer)
  comments : Option (List Comment)
deriving DecidableEq, Repr

/-- The JSON object handed to `Solvr._parse_author`: required keys plus
the optional `avatar_url`.  A field is `none` when the key is absent (or
its value is null). -/
structure AuthorJson where
  id : String
  type : String
  display_name : String
  avatar_url : Option String
deriving DecidableEq, Repr

/-- The JSON object handed to `Solvr._parse_approach`. -/
structure ApproachJson where
  id : String
  post_id : Option String
  angle : String
  content : Option String
  status : Option String
  upvotes : Option Int
  downvotes : Option Int
  created_at : Option String
  updated_at : Option String
  method : Option String
  assumptions : Option (List String)
  author : Option AuthorJson
deriving DecidableEq, Repr

/-- The JSON object handed to `Solvr._parse_answer`. -/
structure AnswerJson where
  id : String
  post_id : Option String
  content : String
  is_accepted : Option Bool
  upvotes : Option Int
  downvotes : Option Int
  created_at : Option String
  updated_at : Option String
  author : Option AuthorJson
deriving DecidableEq, Repr

/-- The JSON object handed to `Solvr._parse_post`: the four required keys
and the optional rest. -/
structure PostJson where
  id : String
  type : String
  title : String
  description : String
  status : Option String
  upvotes : Option Int
  downvotes : Option Int
  view_count : Option Int
  created_at : Option String
  updated_at : Option String
  tags : Option (List String)
  author : Option AuthorJson
  success_criteria : Option (List String)
  accepted_answer_id : Option String
  approaches : Option (List ApproachJson)
  answers : Option (List AnswerJson)
deriving DecidableEq, Repr

/-- Models `Solvr._parse_author`: `if not data: return None`, else build the
`Author`. -/
def parse_author : Option AuthorJson → Option Author
  | none => none
  | some d => some ⟨d.id, d.type, d.display_name, d.avatar_url⟩

/-- Models `Solvr._parse_approach` with its `.get` defaults. -/
def parse_approach (d : ApproachJson) : Approach :=
  ⟨d.id, d.post_id.getD "", d.angle, d.content.getD "", d.status.getD "proposed",
    d.upvotes.getD 0, d.downvotes.getD 0, d.created_at.getD "", d.updated_at.getD "",
    d.method, d.assumptions, parse_author d.author⟩

/-- Models `Solvr._parse_answer` with its `.get` defaults. -/
def parse_answer (d : AnswerJson) : Answer :=
  ⟨d.id, d.post_id.getD "", d.content, d.is_accepted.getD false,
    d.upvotes.getD 0, d.downvotes.getD 0, d.created_at.getD "", d.updated_at.getD "",
    parse_author d.author⟩

/-- Models `Solvr._parse_post` with its `.get` defaults.  The
`... if data.get("approaches") else None` guards follow Python
truthiness: an absent key, a null value, or a present-but-empty list all
give `None`. -/
def parse_post (d : PostJson) : Post :=
  ⟨d.id, d.type, d.title, d.description,
    d.status.getD "open", d.upvotes.getD 0, d.downvotes.getD 0, d.view_count.getD 0,
    d.created_at.getD "", d.updated_at.getD "",
    d.tags, parse_author d.author, d.success_criteria, d.accepted_answer_id,
    (match d.approaches with
     | none => none
     | some l => if l.isEmpty then none else some (l.map parse_approach)),
    (match d.answers with
     | none => none
     | some l => if l.isEmpty then none else some (l.map parse_answer)),
    none⟩

/-- C5: `_parse_post` copies the present fields through unchanged and
applies the documented defaults to absent optional fields: status "open",
counters 0, timestamps "", and None for tags, author, success_criteria,
approaches and answers. -/
theorem parse_post_fields_and_defaults :
    (∀ i t ti de : String,
      parse_post ⟨i, t, ti, de, none, none, none, none, none, none,
        none, none, none, none, none, none⟩ =
      ⟨i, t, ti, de, "open", 0, 0, 0, "", "",
        none, none, none, none, none, none, none⟩) ∧
    (∀ d : PostJson,
      (parse_post d).id = d.id ∧ (parse_post d).type = d.type ∧
      (parse_post d).title = d.title ∧ (parse_post d).description = d.description ∧
      (parse_post d).status = d.status.getD "open" ∧
      (parse_post d).upvotes = d.upvotes.getD 0 ∧
      (parse_post d).downvotes = d.downvotes.getD 0 ∧
      (parse_post d).view_count = d.view_count.getD 0 ∧
      (parse_post d).created_at = d.created_at.getD "" ∧
      (parse_post d).updated_at = d.updated_at.getD "" ∧
      (parse_post d).tags = d.tags ∧
      (d.author = none → (parse_post d).author = none) ∧
      (parse_post d).success_criteria = d.success_criteria ∧
      (d.approaches = none → (parse_post d).approaches = none) ∧
      (d.answers = none → (parse_post d).answers = none)) := by
  constructor
  · intro i t ti de
    rfl
  · intro d
    refine ⟨rfl, rfl, rfl, rfl, rfl, rfl, rfl, rfl, rfl, rfl, rfl, ?_, rfl, ?_, ?_⟩
    · intro h; simp [parse_post, h, parse_author]
    · intro h; simp [parse_post, h]
    · intro h; simp [parse_post, h]

/-- Witness for C5: a concrete post with only the required fields parses
to all documented defaults. -/
theorem parse_post_fields_and_defaults_witness :
    parse_post ⟨"post_1", "problem", "T", "D", none, none, none, none, none, none,
        none, none, none, none, none, none⟩ =
      ⟨"post_1", "problem", "T", "D", "open", 0, 0, 0, "", "",
        none, none, none, none, none, none, none⟩ :=
  parse_post_fields_and_defaults.1 "post_1" "problem" "T" "D"

/-- Query-parameter construction of `Solvr.search` (client.py lines
110-119): keys in insertion order q, type, status, per_page, page; a
falsy argument (`None`, 0, "") is omitted; a type of "all" sends no type
filter; `limit` is sent under the key `per_page`. -/
def searchParams (query : String) (type? status? : Option String)
    (limit? page? : Option Int) : List (String × String) :=
  [("q", query)] ++
  (match type? with
   | some t => if t ≠ "" ∧ t ≠ "all" then [("type", t)] else []
   | none => []) ++
  (match status? with
   | some s => if s ≠ "" then [("status", s)] else []
   | none => []) ++
  (match limit? with
   | some l => if l ≠ 0 then [("per_page", toString l)] else []
   | none => []) ++
  (match page? with
   | some p => if p ≠ 0 then [("page", toString p)] else []
   | none => [])

/-- C10: `search` omits a limit of 0 and a page of 0 from the query, a
type of "all" sends no type filter (both produce the requests of the
argument-omitting calls), and a non-zero limit is sent as `per_page`. -/
theorem search_params_truthy_omission :
    (∀ (q : String) (t? s? : Option String),
      searchParams q t? s? (some 0) (some 0) = searchParams q t? s? none none) ∧
    (∀ (q : String) (s? : Option String) (l? p? : Option Int),
      searchParams q (some "all") s? l? p? = searchParams q none s? l? p?) ∧
    (∀ (q : String) (l : Int), l ≠ 0 →
      searchParams q none none (some l) none = [("q", q), ("per_page", toString l)]) := by
  refine ⟨?_, ?_, ?_⟩
  · intro q t? s?
    simp [searchParams]
  · intro q s? l? p?
    simp [searchParams]
  · intro q l hl
    simp [searchParams, hl]

/-- Witness for C10: limit 5 is sent as per_page=5. -/
theorem search_params_truthy_omission_witness :
    searchParams "x" none none (some 5) none = [("q", "x"), ("per_page", "5")] :=
  search_params_truthy_omission.2.2 "x" 5 (by norm_num)

end Solvr

namespace Solvr

/-- Two attempt outcomes with the same control-flow shape: equal HTTP
status (bodies of non-ok responses are unconstrained), or the same
transport failure. -/
def sameAttemptShape : Attempt → Attempt → Prop
  | Attempt.http s b, Attempt.http s' b' => s = s' ∧ (s < 400 → b = b')
  | Attempt.transport e, Attempt.transport e' => e = e'
  | _, _ => False

/-- Two request outcomes in the same class: same constructor and same
status / exception / returned body — only the error message and code may
differ. -/
def sameResultClass : ReqResult → ReqResult → Prop
  | ReqResult.ok v, ReqResult.ok v' => v = v'
  | ReqResult.solvrError _ s _, ReqResult.solvrError _ s' _ => s = s'
  | ReqResult.raisedExn e, ReqResult.raisedExn e' => e = e'
  | ReqResult.genericError, ReqResult.genericError => True
  | _, _ => False

/-- Two `last_error` values in the same class. -/
def sameLastErr : Option LastErr → Option LastErr → Prop
  | none, none => True
  | some (LastErr.solvr _ s _), some (LastErr.solvr _ s' _) => s = s'
  | some (LastErr.exn e), some (LastErr.exn e') => e = e'
  | _, _ => False

theorem sameResultClass_refl (r : ReqResult) : sameResultClass r r := by
  cases r <;> simp [sameResultClass]

theorem sameLastErr_refl (le : Option LastErr) : sameLastErr le le := by
  rcases le with _ | l
  · trivial
  · cases l <;> simp [sameLastErr]

theorem finalRaise_class (le le' : Option LastErr) (h : sameLastErr le le') :
    sameResultClass (finalRaise le) (finalRaise le') := by
  rcases le with _ | l <;> rcases le' with _ | l'
  · trivial
  · cases l' <;> exact absurd h (by simp [sameLastErr])
  · cases l <;> exact absurd h (by simp [sameLastErr])
  · cases l <;> cases l' <;> simp_all [sameLastErr, finalRaise, sameResultClass]

theorem requestLoop_body_irrelevant (resps resps' : Nat → Attempt) (retries : Int)
    (hsh : ∀ a : Nat, sameAttemptShape (resps a) (resps' a)) :
    ∀ (fuel attempts : Nat) (le le' : Option LastErr) (sl : List ℚ),
      sameLastErr le le' →
      sameResultClass (requestLoop resps retries fuel attempts le sl).1
        (requestLoop resps' retries fuel attempts le' sl).1 ∧
      (requestLoop resps retries fuel attempts le sl).2.1 =
        (requestLoop resps' retries fuel attempts le' sl).2.1 ∧
      (requestLoop resps retries fuel attempts le sl).2.2 =
        (requestLoop resps' retries fuel attempts le' sl).2.2 := by
  intro fuel
  induction fuel with
  | zero =>
    intro attempts le le' sl hle
    exact ⟨finalRaise_class le le' hle, rfl, rfl⟩
  | succ m ih =>
    intro attempts le le' sl hle
    simp only [requestLoop]
    by_cases h : (attempts : Int) < retries
    · simp only [if_pos h]
      have hs := hsh (attempts + 1)
      rcases h1 : resps (attempts + 1) with ⟨s, b⟩ | e <;>
        rcases h2 : resps' (attempts + 1) with ⟨s', b'⟩ | e' <;>
        rw [h1, h2] at hs
      · obtain ⟨hss, hbb⟩ : s = s' ∧ (s < 400 → b = b') := hs
        subst hss
        simp only [h1, h2]
        by_cases h4 : s < 400
        · have hb : b = b' := hbb h4
          subst hb
          simp only [if_pos h4]
          cases b with
          | malformed =>
            by_cases hnext : ((attempts + 1 : Nat) : Int) < retries
            · simp only [if_pos hnext]
              exact ih (attempts + 1) _ _ _ (sameLastErr_refl _)
            · simp only [if_neg hnext]
              exact ⟨by trivial, by trivial, by trivial⟩
          | json v =>
            exact ⟨by trivial, by trivial, by trivial⟩
        · simp only [if_neg h4]
          by_cases h5 : s < 500
          · simp only [if_pos h5]
            exact ⟨by trivial, by trivial, by trivial⟩
          · simp only [if_neg h5]
            by_cases hnext : ((attempts + 1 : Nat) : Int) < retries
            · simp only [if_pos hnext]
              exact ih (attempts + 1) _ _ _ rfl
            · simp only [if_neg hnext]
              exact ⟨by trivial, by trivial, by trivial⟩
      · exact absurd hs (by simp [sameAttemptShape])
      · exact absurd hs (by simp [sameAttemptShape])
      · have hee : e = e' := hs
        subst hee
        simp only [h1, h2]
        by_cases hnext : ((attempts + 1 : Nat) : Int) < retries
        · simp only [if_pos hnext]
          exact ih (attempts + 1) _ _ _ (sameLastErr_refl _)
        · simp only [if_neg hnext]
          exact ⟨by trivial, by trivial, by trivial⟩
    · simp only [if_neg h]
      exact ⟨finalRaise_class le le' hle, by trivial, by trivial⟩

/-- C6: an unparseable (or error-object-less) error body produces the
generic message "API error: {status}" with no code, and the body of a
non-success response never changes the control flow: runs whose attempts
agree on statuses and transport failures (error bodies arbitrary) make
the same number of attempts, sleep the same delays, and end in the same
class of outcome with the same status. -/
theorem request_error_body_tolerated :
    (∀ s : Nat, parseErrBody s Body.malformed = ("API error: " ++ toString s, none)) ∧
    (∀ s tg : Nat, parseErrBody s (Body.json ⟨none, none, tg⟩) =
      ("API error: " ++ toString s, none)) ∧
    (∀ (retries : Int) (resps resps' : Nat → Attempt),
      (∀ a : Nat, sameAttemptShape (resps a) (resps' a)) →
      sameResultClass (runRequest retries resps).1 (runRequest retries resps').1 ∧
      (runRequest retries resps).2.1 = (runRequest retries resps').2.1 ∧
      (runRequest retries resps).2.2 = (runRequest retries resps').2.2) := by
  refine ⟨fun s => rfl, fun s tg => rfl, fun retries resps resps' hsh => ?_⟩
  exact requestLoop_body_irrelevant resps resps' retries hsh retries.toNat 0 none none []
    trivial

/-- Witness for C6: a 503 with an unparseable body gets the generic
message, and is retried exactly like a 503 with a parsed error body. -/
theorem request_error_body_tolerated_witness :
    parseErrBody 503 Body.malformed = ("API error: 503", none) ∧
    (runRequest 2 (fun _ => Attempt.http 503 Body.malformed)).2.1 =
      (runRequest 2 (fun _ => Attempt.http 503 (Body.json ⟨some "boom", some "X", 1⟩))).2.1 := by
  obtain ⟨h1, h2, h3⟩ := request_error_body_tolerated
  refine ⟨(h1 503).trans (by rfl), ?_⟩
  exact (h3 2 (fun _ => Attempt.http 503 Body.malformed)
    (fun _ => Attempt.http 503 (Body.json ⟨some "boom", some "X", 1⟩))
    (fun a => by constructor <;> norm_num [sameAttemptShape])).2.1

end Solvr

namespace Provision

/-- A Hetzner server as `provision.py` sees it: name, public IPv4,
provider-assigned id, labels. -/
structure Server where
  name : String
  ip : String
  id : Nat
  labels : List (String × String)
deriving DecidableEq, Repr

/-- An SSH key registered at the provider. -/
structure SSHKeyReg where
  name : String
  public_key : String
  id : Nat
deriving DecidableEq, Repr

/-- Instance metadata written by `save_metadata` on provision. -/
structure Metadata where
  name : String
  purpose : String
  ip : String
  server_type : String
  location : String
  labels : List (String × String)
  ssh_key_path : String
  created_at : String
  hetzner_id : Nat
deriving DecidableEq, Repr

/-- The state `provision.py` reads and writes: the provider's servers and
SSH keys, the local `~/.ssh` key files (path ↦ public-key text), and the
local `instances/<name>/metadata.json` records (dir name ↦ metadata). -/
@[ext] structure World where
  servers : List Server
  sshKeys : List SSHKeyReg
  localKeys : List (String × String)
  instances : List (String × Metadata)
deriving DecidableEq, Repr

/-- CLI arguments relevant to `cmd_provision`. -/
structure ProvisionArgs where
  name : String
  purpose : Option String
  type : Option String
  location : Option String
deriving DecidableEq, Repr

/-- One run's environment inputs produced outside the modelled state:
ssh-keygen output, the provider's choices for the created key and server,
SSH readiness, and the current timestamp. -/
structure ProvisionEnv where
  generatedPubKey : String
  newKeyId : Nat
  newServerId : Nat
  newServerIp : String
  sshReady : Bool
  now : String
deriving DecidableEq, Repr

def DEFAULT_LOCATION : String := "nbg1"

/-- A purpose preset: machine type, image, labels. -/
structure Preset where
  type : String
  image : String
  labels : List (String × String)
deriving DecidableEq, Repr

/-- The `SERVER_PRESETS` table from provision.py. -/
def SERVER_PRESETS (purpose : String) : Option Preset :=
  match purpose with
  | "ipfs" => some ⟨"cx33", "ubuntu-24.04", [("service", "ipfs"), ("component", "kubo")]⟩
  | "api" => some ⟨"cx33", "ubuntu-24.04", [("service", "api"), ("component", "solvr")]⟩
  | "cluster" => some ⟨"cx43", "ubuntu-24.04", [("service", "ipfs"), ("component", "cluster")]⟩
  | _ => none

/-- Models `cmd_provision`: if a server of that name exists, report its address
and return with nothing changed; otherwise ensure a local key pair,
ensure the key is registered, create the server, and persist metadata.
Returns the new world and the printed lines (abridged to the
state-relevant messages). -/
def cmd_provision (args : ProvisionArgs) (env : ProvisionEnv) (w : World) :
    World × List String :=
  let name := args.name
  let purpose := args.purpose.getD "ipfs"
  let location := args.location.getD DEFAULT_LOCATION
  let preset :=
    match SERVER_PRESETS purpose with
    | some p => p
    | none => ⟨"cx33", "ubuntu-24.04", [("service", "ipfs"), ("component", "kubo")]⟩
  let server_type := args.type.getD preset.type
  let labels := preset.labels ++ [("name", name), ("managed-by", "solvr-infra")]
  let header := ["  Provisioning Solvr Node", "  Name:     " ++ name,
    "  Purpose:  " ++ purpose, "  Type:     " ++ server_type, "  Location: " ++ location]
  match w.servers.find? (fun s => s.name = name) with
  | some existing =>
    (w, header ++ ["✓ Server '" ++ name ++ "' already exists", "  IP: " ++ existing.ip])
  | none =>
    let key_path := "~/.ssh/solvr_" ++ name
    let genkey := w.localKeys.find? (fun kv => kv.1 = key_path)
    let localKeys' :=
      match genkey with
      | some _ => w.localKeys
      | none => w.localKeys ++ [(key_path, env.generatedPubKey)]
    let pub :=
      match genkey with
      | some kv => kv.2
      | none => env.generatedPubKey
    let ssh_key_name := "solvr-" ++ name
    let sshKeys' :=
      match w.sshKeys.find? (fun k => k.name = ssh_key_name) with
      | some _ => w.sshKeys
      | none => w.sshKeys ++ [⟨ssh_key_name, pub, env.newKeyId⟩]
    let server : Server := ⟨name, env.newServerIp, env.newServerId, labels⟩
    let metadata : Metadata := ⟨name, purpose, env.newServerIp, server_type, location,
      labels, key_path, env.now, env.newServerId⟩
    let instances' := w.instances.filter (fun kv => kv.1 ≠ name) ++ [(name, metadata)]
    (⟨w.servers ++ [server], sshKeys', localKeys', instances'⟩,
      header ++ ["✓ Server created: " ++ env.newServerIp] ++
        (if env.sshReady then [] else ["SSH not ready yet, but server is running"]) ++
        ["  Provisioning Complete", "  Server:  " ++ name, "  IP:      " ++ env.newServerIp])

/-- Models `cmd_destroy`: look up by name; unless cancelled, delete the remote
server, the local metadata directory, and the registered key
`solvr-{name}` if present. -/
def cmd_destroy (name : String) (yes : Bool) (confirm : String) (w : World) :
    World × List String :=
  match w.servers.find? (fun s => s.name = name) with
  | none => (w, ["Server '" ++ name ++ "' not found"])
  | some server =>
    if yes = false ∧ confirm.toLower ≠ "y" then
      (w, ["Cancelled"])
    else
      let servers' := w.servers.filter (fun s => s.id ≠ server.id)
      let instances' := w.instances.filter (fun kv => kv.1 ≠ name)
      let sshKeys' :=
        match w.sshKeys.find? (fun k => k.name = "solvr-" ++ name) with
        | some k => w.sshKeys.filter (fun k2 => k2.id ≠ k.id)
        | none => w.sshKeys
      (⟨servers', sshKeys', w.localKeys, instances'⟩,
        ["Destroying server '" ++ name ++ "'...", "✓ Server '" ++ name ++ "' destroyed"])

/-- C7: when a server with the requested name already exists, provision
reports its address and changes nothing: no server is created, no SSH key
is generated or uploaded, no metadata file is written. -/
theorem provision_existing_idempotent (args : ProvisionArgs) (env : ProvisionEnv)
    (w : World) (ex : Server)
    (hex : w.servers.find? (fun s => s.name = args.name) = some ex) :
    (cmd_provision args env w).1 = w ∧
    "  IP: " ++ ex.ip ∈ (cmd_provision args env w).2 := by
  simp only [cmd_provision, hex]
  exact ⟨by trivial, by simp⟩

/-- Witness for C7: provisioning an already-existing server name. -/
theorem provision_existing_idempotent_witness :
    (cmd_provision ⟨"s1", none, none, none⟩ ⟨"pk", 5, 6, "9.9.9.9", true, "t"⟩
      ⟨[⟨"s1", "1.2.3.4", 1, []⟩], [], [], []⟩).1 =
      ⟨[⟨"s1", "1.2.3.4", 1, []⟩], [], [], []⟩ ∧
    "  IP: " ++ "1.2.3.4" ∈
      (cmd_provision ⟨"s1", none, none, none⟩ ⟨"pk", 5, 6, "9.9.9.9", true, "t"⟩
        ⟨[⟨"s1", "1.2.3.4", 1, []⟩], [], [], []⟩).2 :=
  provision_existing_idempotent ⟨"s1", none, none, none⟩ ⟨"pk", 5, 6, "9.9.9.9", true, "t"⟩
    ⟨[⟨"s1", "1.2.3.4", 1, []⟩], [], [], []⟩ ⟨"s1", "1.2.3.4", 1, []⟩ (by rfl)

/-- C8: destroying a found server with confirmation deletes the remote
server, the local metadata record, and the registered key solvr-{name}
when present; local key files are untouched. -/
theorem destroy_deletes_resources (name : String) (yes : Bool) (confirm : String)
    (w : World) (server : Server)
    (hfind : w.servers.find? (fun s => s.name = name) = some server)
    (hconf : yes = true ∨ confirm.toLower = "y") :
    (cmd_destroy name yes confirm w).1.servers =
      w.servers.filter (fun s => s.id ≠ server.id) ∧
    (cmd_destroy name yes confirm w).1.instances =
      w.instances.filter (fun kv => kv.1 ≠ name) ∧
    ((cmd_destroy name yes confirm w).1.sshKeys =
      match w.sshKeys.find? (fun k => k.name = "solvr-" ++ name) with
      | some k => w.sshKeys.filter (fun k2 => k2.id ≠ k.id)
      | none => w.sshKeys) ∧
    (cmd_destroy name yes confirm w).1.localKeys = w.localKeys := by
  have hcond : ¬ (yes = false ∧ confirm.toLower ≠ "y") := by
    rcases hconf with h | h <;> simp [h]
  simp only [cmd_destroy, hfind, if_neg hcond]
  exact ⟨by trivial, by trivial, by trivial, by trivial⟩

/-- Witness for C8: destroying a concrete world's only server with the
confirmation flag removes the server, its metadata, and its key. -/
theorem destroy_deletes_resources_witness :
    (cmd_destroy "s1" true ""
      ⟨[⟨"s1", "1.2.3.4", 1, []⟩], [⟨"solvr-s1", "pk", 9⟩], [("kp", "pk")],
        [("s1", ⟨"s1", "ipfs", "1.2.3.4", "cx33", "nbg1", [], "kp", "t", 1⟩)]⟩).1 =
      ⟨[], [], [("kp", "pk")], []⟩ := by
  obtain ⟨h1, h2, h3, h4⟩ := destroy_deletes_resources "s1" true ""
    ⟨[⟨"s1", "1.2.3.4", 1, []⟩], [⟨"solvr-s1", "pk", 9⟩], [("kp", "pk")],
      [("s1", ⟨"s1", "ipfs", "1.2.3.4", "cx33", "nbg1", [], "kp", "t", 1⟩)]⟩
    ⟨"s1", "1.2.3.4", 1, []⟩ (by rfl) (Or.inl rfl)
  refine World.ext ?_ ?_ ?_ ?_ <;> first
    | exact h1.trans (by decide)
    | exact h2.trans (by decide)
    | exact h3.trans (by decide)
    | exact h4.trans (by decide)

end Provision
